import Mathlib

/-!
Shallow embedding of MechanicalSoup's `StatefulBrowser` (stateful_browser.py)
and `utils.py`. HTML documents are modelled as trees of nodes; the external
libraries (requests, bs4 querying, urllib, re) are modelled as abstract
environment functions where the code merely delegates to them.
-/

set_option autoImplicit false

namespace MechanicalSoup

/-- Value of an HTML attribute in bs4: either a plain string or a list of
strings (multi-valued attributes). -/
inductive AttrVal where
  | str (s : String)
  | list (l : List String)
deriving Repr, DecidableEq

/-- An HTML DOM node: an element with a tag name, attributes and children,
or a text node. `bs4.BeautifulSoup` pages and `bs4.element.Tag` values are
both modelled as `Node`. -/
inductive Node where
  | elem (name : String) (attrs : List (String × AttrVal)) (children : List Node)
  | text (s : String)
deriving Repr

mutual

/-- Decidable structural equality on nodes (bs4 `Tag.__eq__` compares name,
attributes and contents structurally). -/
def Node.decEq : (a b : Node) → Decidable (a = b)
  | .elem n1 t1 c1, .elem n2 t2 c2 =>
    if h1 : n1 = n2 then
      if h2 : t1 = t2 then
        match Node.decEqList c1 c2 with
        | .isTrue h3 => .isTrue (by rw [h1, h2, h3])
        | .isFalse h3 => .isFalse (fun h => h3 (by injection h))
      else .isFalse (fun h => h2 (by injection h))
    else .isFalse (fun h => h1 (by injection h))
  | .elem _ _ _, .text _ => .isFalse (fun h => Node.noConfusion h)
  | .text _, .elem _ _ _ => .isFalse (fun h => Node.noConfusion h)
  | .text s1, .text s2 =>
    if h : s1 = s2 then .isTrue (by rw [h])
    else .isFalse (fun hh => h (by injection hh))

/-- Decidable structural equality on lists of nodes. -/
def Node.decEqList : (a b : List Node) → Decidable (a = b)
  | [], [] => .isTrue rfl
  | [], _ :: _ => .isFalse (fun h => List.noConfusion h)
  | _ :: _, [] => .isFalse (fun h => List.noConfusion h)
  | x :: xs, y :: ys =>
    match Node.decEq x y, Node.decEqList xs ys with
    | .isTrue h1, .isTrue h2 => .isTrue (by rw [h1, h2])
    | .isFalse h1, _ => .isFalse (fun h => h1 (by injection h))
    | _, .isFalse h2 => .isFalse (fun h => h2 (by injection h))

end

instance : DecidableEq Node := Node.decEq

namespace Node

/-- Tag name of a node (`Tag.name`); text nodes get a pseudo-name. -/
def name : Node → String
  | .elem n _ _ => n
  | .text _ => "#text"

/-- Attribute list of a node (`Tag.attrs`). -/
def attrs : Node → List (String × AttrVal)
  | .elem _ a _ => a
  | .text _ => []

/-- Children of a node (`Tag.contents`). -/
def children : Node → List Node
  | .elem _ _ c => c
  | .text _ => []

/-- Attribute lookup, `Tag.attrs.get(key)`: first binding of `key`. -/
def getAttr? (t : Node) (key : String) : Option AttrVal :=
  (t.attrs.find? (fun p => p.1 == key)).map (·.2)

/-- Membership test on attributes, `Tag.has_attr(key)` / `key in tag.attrs`. -/
def hasAttr (t : Node) (key : String) : Bool :=
  (t.getAttr? key).isSome

/-- Attribute lookup with default, `Tag.get(key, default)`. -/
def get (t : Node) (key : String) (dflt : AttrVal) : AttrVal :=
  match t.getAttr? key with
  | some v => v
  | none => dflt

end Node

mutual

/-- All descendants of a node in document order (`Tag.descendants`,
the search space of `find_all`), excluding the node itself. -/
def Node.descendants : Node → List Node
  | .text _ => []
  | .elem _ _ cs => Node.descendantsList cs

/-- Descendants of a forest: each root followed by its own descendants. -/
def Node.descendantsList : List Node → List Node
  | [] => []
  | c :: cs => c :: (Node.descendants c ++ Node.descendantsList cs)

end

/-- Matching of an attribute value against a string filter, as in
`find_all(name, attr=value)`: a string attribute matches by equality, a
multi-valued attribute matches if any of its items is equal. -/
def attrValMatches : Option AttrVal → String → Bool
  | some (.str s), v => s == v
  | some (.list l), v => l.contains v
  | none, _ => false

namespace Node

/-- Model of `page.find_all(tagName, attrKey=attrVal)`: the descendants of
`page` with the given tag name whose `attrKey` attribute matches `attrVal`. -/
def findAllAttr (page : Node) (tagName attrKey attrVal : String) : List Node :=
  page.descendants.filter
    (fun e => e.name == tagName && attrValMatches (e.getAttr? attrKey) attrVal)

/-- Model of `page.find_all('a', href=True)`: the descendant anchors that
carry an `href` attribute. -/
def findAllWithAttr (page : Node) (tagName attrKey : String) : List Node :=
  page.descendants.filter (fun e => e.name == tagName && e.hasAttr attrKey)

end Node

mutual

/-- Concatenated text of a node's subtree (`Tag.text`). -/
def Node.innerText : Node → String
  | .text s => s
  | .elem _ _ cs => Node.innerTextList cs

/-- Concatenated text of a forest. -/
def Node.innerTextList : List Node → String
  | [] => ""
  | c :: cs => Node.innerText c ++ Node.innerTextList cs

end

namespace Node

/-- Model of `Tag.extend(elements)`: appends the elements to the tag's
children. (bs4 would additionally detach each appended element from its
previous position in the tree; the claims below that depend on `extend` are
stated so that they do not hinge on that difference.) -/
def extend (t : Node) (es : List Node) : Node :=
  match t with
  | .elem n a c => .elem n a (c ++ es)
  | .text s => .text s

end Node

/-! Headers and `requests.structures.CaseInsensitiveDict`. -/

/-- ASCII lowercasing of a string, modelling Python's `str.lower()` (defined
over the character list so that it evaluates by `decide`). -/
def lowerStr (s : String) : String := String.mk (s.data.map Char.toLower)

/-- HTTP headers as an association list of header name to value. -/
abbrev Headers := List (String × String)

/-- Membership in a `CaseInsensitiveDict` (`key in headers`): compares
header names case-insensitively. -/
def ciContains (h : Headers) (key : String) : Bool :=
  h.any (fun p => lowerStr p.1 == lowerStr key)

/-- Lookup in a `CaseInsensitiveDict`: first value stored under a
case-insensitively equal key. -/
def ciGet (h : Headers) (key : String) : Option String :=
  (h.find? (fun p => lowerStr p.1 == lowerStr key)).map (·.2)

/-- Assignment `headers[key] = value` on a `CaseInsensitiveDict`: replaces a
case-insensitively equal binding in place, otherwise appends. -/
def ciSet (h : Headers) (key value : String) : Headers :=
  if ciContains h key then
    h.map (fun p => if lowerStr p.1 == lowerStr key then (key, value) else p)
  else
    h ++ [(key, value)]

/-- Keyword arguments forwarded to requests, restricted to the only part
the code inspects: the optional `headers` entry. `none` models kwargs with
no `headers` key. -/
abbrev Kwargs := Option Headers

/-- Headers seen by `kwargs.get('headers', \x7b\x7d)`. -/
def Kwargs.headers (kw : Kwargs) : Headers := kw.getD []

/-- Model of `StatefulBrowser._merge_referer`: set the Referer header in the
kwargs passed to requests, if the current URL is known and the caller has
not already supplied one (case-insensitively); otherwise return the kwargs
unchanged. -/
def merge_referer (referer : Option String) (kw : Kwargs) : Kwargs :=
  let headers := kw.headers
  match referer with
  | some r =>
    if ciContains headers "Referer" then kw
    else some (ciSet headers "Referer" r)
  | none => kw

/-! Requests-level values. -/

/-- Abstract `requests.PreparedRequest`: the code only stores it and hands it
back to `Session.send`, so it is modelled as an opaque token. -/
structure PreparedRequest where
  token : Nat
deriving Repr, DecidableEq

/-- Exceptions the modelled code can raise. -/
inductive Err where
  | linkNotFound (msg : String)
  | valueError (msg : String)
  | attributeError (msg : String)
  | runtimeError (msg : String)
  | requestsException
  | typeError
deriving Repr, DecidableEq

/-- Model of `_types.Response`: a requests response extended with the
optional parsed soup attached by `Browser.add_soup`. -/
structure Response where
  soup : Option Node
  url : String
  statusCode : Nat
  request : Option PreparedRequest
deriving Repr, DecidableEq

/-- Model of `form.Form`: wraps a single form tag. -/
structure Form where
  tag : Node
deriving Repr, DecidableEq

/-- Model of `stateful_browser._BrowserState`. -/
structure BrowserState where
  page : Option Node
  url : Option String
  form : Option Form
  request : Option PreparedRequest
deriving Repr, DecidableEq

/-- Model of the `StatefulBrowser` object: its single-slot state plus the
attributes of the underlying `Browser` that the embedded methods read. -/
structure StatefulBrowser where
  state : BrowserState
  raise_on_404 : Bool
  sessionOpen : Bool
deriving Repr, DecidableEq

/-- Argument `btnName` of `submit_selected`, forwarded to
`Form.choose_submit`. -/
inductive BtnName where
  | auto
  | named (s : String)
  | noButton
  | tagBtn (t : Node)
deriving Repr, DecidableEq

/-- External operations the embedded code delegates to. `browser.py` and
`form.py` are outside the embedded sources, and requests / urllib / re are
third-party; each delegate is an arbitrary function of this environment.
`chooseSubmit` and `formSetItem` model `Form.choose_submit` and
`Form.__setitem__`: they may raise, and they mutate only the internals of
the form object already referenced by the state, so the state's bindings
are unaffected by them. `parseSoup` models what `Browser.add_soup` attaches
as `response.soup`. -/
structure Env where
  get : String → Kwargs → Except Err Response
  sessionGet : String → Kwargs → Except Err Response
  send : PreparedRequest → Except Err Response
  parseSoup : Response → Option Node
  submit : Form → Option String → Kwargs → Except Err Response
  chooseSubmit : Form → BtnName → Except Err Unit
  formSetItem : Form → String → String → Except Err Unit
  urljoin : String → String → String
  reSearch : String → String → Bool
  cssSelect : Node → String → Nat → List Node

/-- Record of one HTTP request issued by an operation, with the kwargs the
code passed down. -/
inductive SentRequest where
  | getReq (url : String) (kw : Kwargs)
  | sendReq (req : PreparedRequest)
  | submitReq (f : Form) (url : Option String) (kw : Kwargs)
deriving Repr, DecidableEq

/-- Kwargs carried by a sent request (`sendReq` replays a stored prepared
request and carries none). -/
def SentRequest.kwargs : SentRequest → Kwargs
  | .getReq _ kw => some (kw.headers)
  | .sendReq _ => none
  | .submitReq _ _ kw => some (kw.headers)

/-- Decidable equality for `Except` outcomes, used to evaluate the witness
examples below. -/
instance {ε α : Type} [DecidableEq ε] [DecidableEq α] :
    DecidableEq (Except ε α) := fun a b =>
  match a, b with
  | .ok x, .ok y =>
    if h : x = y then .isTrue (by rw [h])
    else .isFalse (fun hh => h (by injection hh))
  | .error x, .error y =>
    if h : x = y then .isTrue (by rw [h])
    else .isFalse (fun hh => h (by injection hh))
  | .ok _, .error _ => .isFalse (fun h => Except.noConfusion h)
  | .error _, .ok _ => .isFalse (fun h => Except.noConfusion h)

/-- Outcome of a navigation-style method: the returned response or raised
exception, the browser after the call, and the requests that were issued. -/
structure OpOut where
  result : Except Err Response
  browser : StatefulBrowser
  trace : List SentRequest
deriving Repr, DecidableEq

/-- Message of the `AttributeError` raised by the `form` property. -/
def noFormMsg : String := "No form has been selected yet on this page."

/-- Message of the `ValueError` raised by `refresh` when no originating
request is stored. -/
def notRefreshableMsg : String :=
  "The current page is not refreshable. Either no " ++
  "page is opened or low-level browser methods were used to do so"

namespace StatefulBrowser

/-- Property `page`. -/
def page (b : StatefulBrowser) : Option Node := b.state.page

/-- Property `url`. -/
def url (b : StatefulBrowser) : Option String := b.state.url

/-- Property `form`: raises `AttributeError` when no form is selected. -/
def formProp (b : StatefulBrowser) : Except Err Form :=
  match b.state.form with
  | none => .error (.attributeError noFormMsg)
  | some f => .ok f

/-- Backward-compatibility accessor `get_current_form`: same as `formProp`
but returns `None` instead of raising. -/
def get_current_form (b : StatefulBrowser) : Option Form := b.state.form

/-- Method `__setitem__` (`browser[name] = value`): item assignment on the
currently selected form; fetching the form raises first when none is
selected. -/
def setItem (env : Env) (b : StatefulBrowser) (name value : String) :
    Except Err Unit :=
  match b.formProp with
  | .error e => .error e
  | .ok f => env.formSetItem f name value

/-- Method `absolute_url`: join the current URL (or the empty string when
none is stored) with `url` via `urllib.parse.urljoin`. -/
def absolute_url (env : Env) (b : StatefulBrowser) (u : String) : String :=
  env.urljoin (b.state.url.getD "") u

/-- Method `open` (named `openPage` here because `open` is a Lean keyword):
GET the URL and replace the whole browser state with one built from the
response. -/
def openPage (env : Env) (b : StatefulBrowser) (u : String) (kw : Kwargs) :
    OpOut :=
  match env.get u kw with
  | .error e => ⟨.error e, b, [.getReq u kw]⟩
  | .ok resp =>
    ⟨.ok resp,
     { b with state := ⟨resp.soup, some resp.url, none, resp.request⟩ },
     [.getReq u kw]⟩

/-- Method `open_relative`: `open` on the absolutized URL. -/
def open_relative (env : Env) (b : StatefulBrowser) (u : String)
    (kw : Kwargs) : OpOut :=
  openPage env b (absolute_url env b u) kw

/-- Method `refresh`: resend the stored prepared request, re-attach a soup,
and replace the whole browser state; raises `ValueError` when no request is
stored and `RuntimeError` when the session is closed. -/
def refresh (env : Env) (b : StatefulBrowser) : OpOut :=
  match b.state.request with
  | none => ⟨.error (.valueError notRefreshableMsg), b, []⟩
  | some oldRequest =>
    if !b.sessionOpen then ⟨.error (.runtimeError "Session is closed"), b, []⟩
    else
      match env.send oldRequest with
      | .error e => ⟨.error e, b, [.sendReq oldRequest]⟩
      | .ok resp0 =>
        let resp := { resp0 with soup := env.parseSoup resp0 }
        ⟨.ok resp,
         { b with state := ⟨resp.soup, some resp.url, none, resp.request⟩ },
         [.sendReq oldRequest]⟩

/-- Method `submit_selected`: choose a submit element on the selected form
(raising `AttributeError` via the `form` property when none is selected),
merge the Referer header, submit, and — only when `update_state` is set —
replace the whole browser state with one built from the response. The
source re-checks the selected form just before submitting; that second
check can never fire once the first passed, so the model folds them. -/
def submit_selected (env : Env) (b : StatefulBrowser) (btnName : BtnName)
    (update_state : Bool) (kw : Kwargs) : OpOut :=
  match b.state.form with
  | none => ⟨.error (.attributeError noFormMsg), b, []⟩
  | some f =>
    match env.chooseSubmit f btnName with
    | .error e => ⟨.error e, b, []⟩
    | .ok _ =>
      let kw' := merge_referer b.state.url kw
      match env.submit f b.state.url kw' with
      | .error e => ⟨.error e, b, [.submitReq f b.state.url kw']⟩
      | .ok resp =>
        ⟨.ok resp,
         if update_state then
           { b with state := ⟨resp.soup, some resp.url, none, resp.request⟩ }
         else b,
         [.submitReq f b.state.url kw']⟩

end StatefulBrowser

/-- Argument `link` of `follow_link`, `download_link` and
`_find_link_internal`: a tag, a URL regex string, or `None`. -/
inductive LinkArg where
  | noLink
  | regex (s : String)
  | tagLink (t : Node)
deriving Repr, DecidableEq

/-- Python truthiness of a `link` argument: `None` and the empty string are
falsy; a `bs4.element.Tag` is always truthy (`Tag.__bool__` returns True). -/
def LinkArg.truthy : LinkArg → Bool
  | .noLink => false
  | .regex s => !s.isEmpty
  | .tagLink _ => true

/-- Message of the `ValueError` raised by `_find_link_internal` when `link`
would be treated as `url_regex` but `url_regex` was also given. -/
def urlRegexClashMsg : String :=
  "link parameter cannot be treated as url_regex because url_regex " ++
  "is already present in keyword arguments"

/-- String the code derives from a link tag's `href` attribute:
`link_tag['href']`, then the first item (or `""`) when the value is a list,
then `str(...)`. The attribute is always present on tags returned by
`_find_link_internal`. -/
def hrefString (t : Node) : String :=
  match t.getAttr? "href" with
  | some (.str s) => s
  | some (.list l) => l.headD ""
  | none => ""

/-- Outcome of `download_link`: like `OpOut` plus whether the response
content was written to a file. -/
structure DownloadOut where
  result : Except Err Response
  browser : StatefulBrowser
  trace : List SentRequest
  wroteFile : Bool
deriving Repr, DecidableEq

/-- Argument `selector` of `select_form`: a CSS selector string or a tag. -/
inductive Selector where
  | css (s : String)
  | tagSel (t : Node)
deriving Repr, DecidableEq

/-- Tag names that can carry a form owner, from
`find_associated_elements`. -/
def elements_with_owner_form : List String :=
  ["input", "button", "fieldset", "object", "output", "select", "textarea"]

/-- Model of the nested helper `find_associated_elements` of `select_form`:
for each of the seven owner-capable tag names, all elements of the page
matching `find_all(element, form=form_id)`, concatenated in that order.
The search space is the whole page, with no restriction on the position of
the matches relative to the form. -/
def find_associated_elements (page : Option Node) (form_id : String) :
    List Node :=
  match page with
  | none => []
  | some p =>
    (elements_with_owner_form.map
      (fun el => p.findAllAttr el "form" form_id)).flatten

/-- Wrapping step of `select_form` once a form tag is located: when the tag
has a string `id` attribute, extend it with the associated elements of the
page, then wrap it in a `Form`. -/
def wrapSelectedForm (page : Option Node) (form : Node) : Form :=
  match form.getAttr? "id" with
  | some (.str form_id) =>
    Form.mk (form.extend (find_associated_elements page form_id))
  | _ => Form.mk form

namespace StatefulBrowser

/-- Method `select_form`: locate a form tag (directly, or as the `nr`-th
CSS match on the current page), wrap it — extending it with associated
elements when it has a string id — and store it as the selected form. Only
the `form` slot of the state is updated. -/
def select_form (env : Env) (b : StatefulBrowser) (sel : Selector)
    (nr : Nat) : Except Err Form × StatefulBrowser :=
  let located : Except Err Node :=
    match sel with
    | .tagSel t => if t.name != "form" then .error (.linkNotFound "") else .ok t
    | .css s =>
      match b.state.page with
      | none => .error (.linkNotFound "No page loaded")
      | some p =>
        let found_forms := env.cssSelect p s (nr + 1)
        if found_forms.length != nr + 1 then .error (.linkNotFound "")
        else .ok (found_forms.getLastD (.text ""))
  match located with
  | .error e => (.error e, b)
  | .ok form =>
    let f := wrapSelectedForm b.state.page form
    (.ok f, { b with state := { b.state with form := some f } })

/-- Method `links`: the page's anchors carrying an `href` attribute,
optionally filtered by `re.search` of `url_regex` on a string `href` and by
exact equality of the tag text with `link_text`; the empty list when no
page is loaded. -/
def links (env : Env) (b : StatefulBrowser)
    (url_regex link_text : Option String) : List Node :=
  match b.state.page with
  | none => []
  | some p =>
    let all_links := p.findAllWithAttr "a" "href"
    let result :=
      match url_regex with
      | none => all_links
      | some r =>
        all_links.filter (fun a =>
          match a.getAttr? "href" with
          | some (.str h) => env.reSearch r h
          | _ => false)
    match link_text with
    | none => result
    | some t => result.filter (fun a => a.innerText == t)

/-- Method `find_link`: first result of `links`, raising
`LinkNotFoundError` when there is none. -/
def find_link (env : Env) (b : StatefulBrowser)
    (url_regex link_text : Option String) : Except Err Node :=
  match links env b url_regex link_text with
  | [] => .error (.linkNotFound "")
  | l :: _ => .ok l

/-- Method `_find_link_internal`: return `link` itself when it is a tag
with an `href` attribute; otherwise treat a truthy `link` as `url_regex`
(rejecting the combination with an explicit `url_regex`) and delegate to
`find_link`. A truthy tag without `href` would be stored as `url_regex` and
make Python fail inside `re.search` with a `TypeError` on the first
candidate link (or fall through to `LinkNotFoundError` when there is no
candidate); an exception propagates before any request either way, and the
model collapses that branch to a single exception. -/
def find_link_internal (env : Env) (b : StatefulBrowser) (link : LinkArg)
    (url_regex link_text : Option String) : Except Err Node :=
  match link with
  | .tagLink t =>
    if t.hasAttr "href" then .ok t
    else if url_regex.isSome then .error (.valueError urlRegexClashMsg)
    else .error .typeError
  | .regex s =>
    if !s.isEmpty then
      if url_regex.isSome then .error (.valueError urlRegexClashMsg)
      else find_link env b (some s) link_text
    else find_link env b url_regex link_text
  | .noLink => find_link env b url_regex link_text

/-- Method `follow_link`: find the link, merge the Referer header into the
requests kwargs, and open its `href` relative to the current page. -/
def follow_link (env : Env) (b : StatefulBrowser) (link : LinkArg)
    (url_regex link_text : Option String) (requests_kwargs : Kwargs) :
    OpOut :=
  match find_link_internal env b link url_regex link_text with
  | .error e => ⟨.error e, b, []⟩
  | .ok t =>
    let kw := merge_referer b.state.url requests_kwargs
    open_relative env b (hrefString t) kw

/-- Method `download_link`: find the link, GET its absolutized `href` on
the raw session with the Referer header merged, optionally raise on a 404
status, and only then write the content to `file` if one was given; the
browser state is never touched. -/
def download_link (env : Env) (b : StatefulBrowser) (link : LinkArg)
    (url_regex link_text : Option String) (file : Option String)
    (requests_kwargs : Kwargs) : DownloadOut :=
  match find_link_internal env b link url_regex link_text with
  | .error e => ⟨.error e, b, [], false⟩
  | .ok t =>
    let u := absolute_url env b (hrefString t)
    let kw := merge_referer b.state.url requests_kwargs
    if !b.sessionOpen then
      ⟨.error (.runtimeError "Session is closed"), b, [], false⟩
    else
      match env.sessionGet u kw with
      | .error e => ⟨.error e, b, [.getReq u kw], false⟩
      | .ok resp =>
        if b.raise_on_404 && resp.statusCode == 404 then
          ⟨.error (.linkNotFound ""), b, [.getReq u kw], false⟩
        else ⟨.ok resp, b, [.getReq u kw], file.isSome⟩

end StatefulBrowser

/-! utils.py -/

/-- Model of `utils.is_multipart_file_upload(form, tag)`. -/
def is_multipart_file_upload (form tag : Node) : Bool :=
  match form.get "enctype" (.str ""), tag.get "type" (.str "") with
  | .str enctype, .str tagType =>
    enctype == "multipart/form-data" && lowerStr tagType == "file"
  | _, _ => false

/-! Spec-side definition used to compare the code against the specification
text of the form-association mechanism. -/

/-- Definition following the spec's words for form ownership: the elements
of owner-capable tag name that lie outside the form's DOM subtree and whose
`form` attribute equals the form's id. Used only to compare against
`find_associated_elements`, which is what the code computes. -/
def specOutsideOwnedElements (page : Option Node) (form : Node)
    (form_id : String) : List Node :=
  match page with
  | none => []
  | some p =>
    p.descendants.filter (fun e =>
      elements_with_owner_form.contains e.name &&
      attrValMatches (e.getAttr? "form") form_id &&
      !(form.descendants.contains e))

/-! Concrete material used by the witness examples. -/

/-- Sample response. -/
def sampleResponse : Response :=
  ⟨some (.elem "html" [] [.text "ok"]), "http://example.com/next", 200,
   some ⟨7⟩⟩

/-- Sample 404 response. -/
def notFoundResponse : Response :=
  ⟨none, "http://example.com/missing", 404, some ⟨8⟩⟩

/-- Sample selected form. -/
def sampleForm : Form := Form.mk (.elem "form" [] [])

/-- Sample anchor carrying an href. -/
def sampleAnchor : Node :=
  .elem "a" [("href", .str "/next")] [.text "click"]

/-- Sample page holding one link. -/
def samplePage : Node := .elem "[document]" [] [sampleAnchor]

/-- Sample browser with a full state. -/
def sampleBrowser : StatefulBrowser :=
  ⟨⟨some samplePage, some "http://example.com/cur", some sampleForm,
    some ⟨3⟩⟩, false, true⟩

/-- Sample browser with an empty state. -/
def emptyBrowser : StatefulBrowser :=
  ⟨⟨none, none, none, none⟩, false, true⟩

/-- Environment whose network calls all succeed with `sampleResponse`. -/
def okEnv : Env where
  get := fun _ _ => .ok sampleResponse
  sessionGet := fun _ _ => .ok sampleResponse
  send := fun _ => .ok sampleResponse
  parseSoup := fun r => r.soup
  submit := fun _ _ _ => .ok sampleResponse
  chooseSubmit := fun _ _ => .ok ()
  formSetItem := fun _ _ _ => .ok ()
  urljoin := fun a b => a ++ b
  reSearch := fun _ _ => true
  cssSelect := fun _ _ _ => []

/-- Environment whose network calls all raise. -/
def failEnv : Env :=
  { okEnv with
    get := fun _ _ => .error .requestsException
    sessionGet := fun _ _ => .error .requestsException
    send := fun _ => .error .requestsException
    submit := fun _ _ _ => .error .requestsException }

/-- Environment whose raw session GET yields a 404. -/
def notFoundEnv : Env :=
  { okEnv with sessionGet := fun _ _ => .ok notFoundResponse }

/-- Input of the C4 counterexample: a control that sits inside the form's
own subtree yet declares `form="x"`. -/
def insideInput : Node := .elem "input" [("form", .str "x")] []

/-- Form of the C4 counterexample (id "x", containing `insideInput` and a
text node after it). -/
def insideForm : Node :=
  .elem "form" [("id", .str "x")] [insideInput, .text "y"]

/-- Page of the C4 counterexample. -/
def insidePage : Node := .elem "[document]" [] [insideForm]

/-- Browser of the C4 counterexample. -/
def insideBrowser : StatefulBrowser :=
  ⟨⟨some insidePage, none, none, none⟩, false, true⟩

/-- Sample browser configured with `raise_on_404=True`. -/
def raisingBrowser : StatefulBrowser :=
  { sampleBrowser with raise_on_404 := true }

/-! Helper lemmas. -/

/-- Appending a fresh binding to headers with no case-insensitive match
makes it the one found by a case-insensitive lookup. -/
theorem ciGet_append_single (h : Headers) (k v : String)
    (hnc : ciContains h k = false) : ciGet (h ++ [(k, v)]) k = some v := by
  induction h with
  | nil => simp [ciGet, List.find?]
  | cons p t ih =>
    have hnc' : ciContains t k = false := by
      simp [ciContains] at hnc ⊢
      exact fun q hq => hnc.2 q hq
    have hp : (lowerStr p.1 == lowerStr k) = false := by
      simp [ciContains] at hnc
      simp [hnc.1]
    simp only [List.cons_append, ciGet, List.find?, hp]
    exact ih hnc'

/-- Setting a header that is not yet present stores exactly that value under
the case-insensitive key. -/
theorem ciGet_ciSet_of_not_contains (h : Headers) (k v : String)
    (hnc : ciContains h k = false) : ciGet (ciSet h k v) k = some v := by
  unfold ciSet
  rw [hnc]
  simp only [Bool.false_eq_true, if_false]
  exact ciGet_append_single h k v hnc

/-! Claim theorems. -/

/-- C10: `is_multipart_file_upload(form, tag)` returns True exactly when the
form's `enctype` attribute is the string "multipart/form-data" and the tag's
`type` attribute is a string that lowercases to "file"; a missing or
list-valued attribute therefore yields False (and the function is total, so
it never raises). -/
theorem is_multipart_file_upload_iff (form tag : Node) :
    is_multipart_file_upload form tag = true ↔
      (form.getAttr? "enctype" = some (.str "multipart/form-data") ∧
       ∃ s, tag.getAttr? "type" = some (.str s) ∧ lowerStr s = "file") := by
  unfold is_multipart_file_upload Node.get
  cases he : form.getAttr? "enctype" with
  | none =>
    cases ht : tag.getAttr? "type" with
    | none => simp
    | some v => cases v <;> simp
  | some ve =>
    cases ve with
    | str se =>
      cases ht : tag.getAttr? "type" with
      | none =>
        simp
        intro _
        decide
      | some v => cases v <;> simp
    | list le =>
      cases ht : tag.getAttr? "type" with
      | none => simp
      | some v => cases v <;> simp

/-- C1: every navigation that returns normally — `open`, `refresh`, and
`submit_selected` with `update_state=True` — replaces the browser state
wholesale by a single new state built from the response: page is the
response's soup, url the response's URL, request the response's prepared
request, and no form is selected; no field of the previous state survives. -/
theorem navigation_replaces_state_wholesale (env : Env) (b : StatefulBrowser) :
    (∀ u kw resp, (StatefulBrowser.openPage env b u kw).result = .ok resp →
      (StatefulBrowser.openPage env b u kw).browser.state =
        ⟨resp.soup, some resp.url, none, resp.request⟩) ∧
    (∀ resp, (StatefulBrowser.refresh env b).result = .ok resp →
      (StatefulBrowser.refresh env b).browser.state =
        ⟨resp.soup, some resp.url, none, resp.request⟩) ∧
    (∀ btn kw resp,
      (StatefulBrowser.submit_selected env b btn true kw).result = .ok resp →
      (StatefulBrowser.submit_selected env b btn true kw).browser.state =
        ⟨resp.soup, some resp.url, none, resp.request⟩) := by
  refine ⟨?_, ?_, ?_⟩
  · intro u kw resp h
    cases hg : env.get u kw with
    | error e => simp [StatefulBrowser.openPage, hg] at h
    | ok r =>
      simp [StatefulBrowser.openPage, hg] at h ⊢
      subst h
      simp
  · intro resp h
    cases hr : b.state.request with
    | none => simp [StatefulBrowser.refresh, hr] at h
    | some oldRequest =>
      cases hs : b.sessionOpen with
      | false => simp [StatefulBrowser.refresh, hr, hs] at h
      | true =>
        cases hg : env.send oldRequest with
        | error e => simp [StatefulBrowser.refresh, hr, hs, hg] at h
        | ok r =>
          simp [StatefulBrowser.refresh, hr, hs, hg] at h ⊢
          subst h
          simp
  · intro btn kw resp h
    cases hf : b.state.form with
    | none => simp [StatefulBrowser.submit_selected, hf] at h
    | some f =>
      cases hc : env.chooseSubmit f btn with
      | error e => simp [StatefulBrowser.submit_selected, hf, hc] at h
      | ok u =>
        cases hg : env.submit f b.state.url (merge_referer b.state.url kw) with
        | error e => simp [StatefulBrowser.submit_selected, hf, hc, hg] at h
        | ok r =>
          simp [StatefulBrowser.submit_selected, hf, hc, hg] at h ⊢
          subst h
          simp

/-- Witness for C1: on a concrete browser and all-succeeding environment,
the three navigations end in the state built from the sample response. -/
theorem navigation_replaces_state_wholesale_witness :
    (StatefulBrowser.openPage okEnv sampleBrowser "http://example.com/x"
        none).browser.state =
      ⟨sampleResponse.soup, some sampleResponse.url, none,
       sampleResponse.request⟩ ∧
    (StatefulBrowser.refresh okEnv sampleBrowser).browser.state =
      ⟨sampleResponse.soup, some sampleResponse.url, none,
       sampleResponse.request⟩ ∧
    (StatefulBrowser.submit_selected okEnv sampleBrowser .auto true
        none).browser.state =
      ⟨sampleResponse.soup, some sampleResponse.url, none,
       sampleResponse.request⟩ :=
  ⟨(navigation_replaces_state_wholesale okEnv sampleBrowser).1
      "http://example.com/x" none sampleResponse rfl,
   (navigation_replaces_state_wholesale okEnv sampleBrowser).2.1
      sampleResponse rfl,
   (navigation_replaces_state_wholesale okEnv sampleBrowser).2.2
      .auto none sampleResponse rfl⟩

/-- C2: a navigation that raises leaves the browser exactly as it was: a
failing `open`, a failing `refresh` — including the `ValueError` raised
when no originating request is stored — and a failing `submit_selected`
all return the untouched browser. -/
theorem navigation_failure_preserves_state (env : Env) (b : StatefulBrowser) :
    (∀ u kw e, (StatefulBrowser.openPage env b u kw).result = .error e →
      (StatefulBrowser.openPage env b u kw).browser = b) ∧
    (∀ e, (StatefulBrowser.refresh env b).result = .error e →
      (StatefulBrowser.refresh env b).browser = b) ∧
    (b.state.request = none →
      (StatefulBrowser.refresh env b).result =
        .error (.valueError notRefreshableMsg) ∧
      (StatefulBrowser.refresh env b).browser = b) ∧
    (∀ btn us kw e,
      (StatefulBrowser.submit_selected env b btn us kw).result = .error e →
      (StatefulBrowser.submit_selected env b btn us kw).browser = b) := by
  refine ⟨?_, ?_, ?_, ?_⟩
  · intro u kw e h
    cases hg : env.get u kw with
    | error e2 => simp [StatefulBrowser.openPage, hg]
    | ok r => simp [StatefulBrowser.openPage, hg] at h
  · intro e h
    cases hr : b.state.request with
    | none => simp [StatefulBrowser.refresh, hr]
    | some oldRequest =>
      cases hs : b.sessionOpen with
      | false => simp [StatefulBrowser.refresh, hr, hs]
      | true =>
        cases hg : env.send oldRequest with
        | error e2 => simp [StatefulBrowser.refresh, hr, hs, hg]
        | ok r => simp [StatefulBrowser.refresh, hr, hs, hg] at h
  · intro hr
    exact ⟨by simp [StatefulBrowser.refresh, hr], by simp [StatefulBrowser.refresh, hr]⟩
  · intro btn us kw e h
    cases hf : b.state.form with
    | none => simp [StatefulBrowser.submit_selected, hf]
    | some f =>
      cases hc : env.chooseSubmit f btn with
      | error e2 => simp [StatefulBrowser.submit_selected, hf, hc]
      | ok u =>
        cases hg : env.submit f b.state.url (merge_referer b.state.url kw) with
        | error e2 => simp [StatefulBrowser.submit_selected, hf, hc, hg]
        | ok r => simp [StatefulBrowser.submit_selected, hf, hc, hg] at h

/-- Witness for C2: on a failing environment, `open`, `refresh` and
`submit_selected` leave the sample browser untouched, and `refresh` on a
browser with no stored request raises the `ValueError`. -/
theorem navigation_failure_preserves_state_witness :
    (StatefulBrowser.openPage failEnv sampleBrowser "http://example.com/x"
        none).browser = sampleBrowser ∧
    (StatefulBrowser.refresh failEnv sampleBrowser).browser = sampleBrowser ∧
    ((StatefulBrowser.refresh failEnv emptyBrowser).result =
        .error (.valueError notRefreshableMsg) ∧
     (StatefulBrowser.refresh failEnv emptyBrowser).browser = emptyBrowser) ∧
    (StatefulBrowser.submit_selected failEnv sampleBrowser .auto true
        none).browser = sampleBrowser :=
  ⟨(navigation_failure_preserves_state failEnv sampleBrowser).1
      "http://example.com/x" none .requestsException rfl,
   (navigation_failure_preserves_state failEnv sampleBrowser).2.1
      .requestsException rfl,
   (navigation_failure_preserves_state failEnv emptyBrowser).2.2.1 rfl,
   (navigation_failure_preserves_state failEnv sampleBrowser).2.2.2
      .auto true none .requestsException rfl⟩

/-- C5: `submit_selected` with `update_state=False` and `download_link`
return the browser with all four state fields untouched, whether they
succeed or raise. -/
theorem non_navigation_preserves_state (env : Env) (b : StatefulBrowser)
    (btn : BtnName) (kw : Kwargs) (link : LinkArg)
    (ur lt file : Option String) (rkw : Kwargs) :
    (StatefulBrowser.submit_selected env b btn false kw).browser = b ∧
    (StatefulBrowser.download_link env b link ur lt file rkw).browser = b := by
  constructor
  · cases hf : b.state.form with
    | none => simp [StatefulBrowser.submit_selected, hf]
    | some f =>
      cases hc : env.chooseSubmit f btn with
      | error e => simp [StatefulBrowser.submit_selected, hf, hc]
      | ok u =>
        cases hg : env.submit f b.state.url (merge_referer b.state.url kw) with
        | error e => simp [StatefulBrowser.submit_selected, hf, hc, hg]
        | ok r => simp [StatefulBrowser.submit_selected, hf, hc, hg]
  · cases hl : StatefulBrowser.find_link_internal env b link ur lt with
    | error e => simp [StatefulBrowser.download_link, hl]
    | ok t =>
      cases hs : b.sessionOpen with
      | false => simp [StatefulBrowser.download_link, hl, hs]
      | true =>
        cases hg : env.sessionGet
            (StatefulBrowser.absolute_url env b (hrefString t))
            (merge_referer b.state.url rkw) with
        | error e => simp [StatefulBrowser.download_link, hl, hs, hg]
        | ok r =>
          by_cases h404 : (b.raise_on_404 && r.statusCode == 404) = true <;>
            simp [StatefulBrowser.download_link, hl, hs, hg, h404]

/-- C7: a successful `open` makes the `page` property return exactly the
response's soup and the `url` property exactly the response's URL, and
`open_relative` is `open` applied to the urljoin of the current URL (or
the empty string when none is stored) with its argument. -/
theorem open_updates_page_and_open_relative (env : Env) (b : StatefulBrowser)
    (u : String) (kw : Kwargs) :
    (∀ resp, (StatefulBrowser.openPage env b u kw).result = .ok resp →
      (StatefulBrowser.openPage env b u kw).browser.page = resp.soup ∧
      (StatefulBrowser.openPage env b u kw).browser.url = some resp.url) ∧
    StatefulBrowser.open_relative env b u kw =
      StatefulBrowser.openPage env b (env.urljoin (b.state.url.getD "") u)
        kw := by
  constructor
  · intro resp h
    cases hg : env.get u kw with
    | error e => simp [StatefulBrowser.openPage, hg] at h
    | ok r =>
      simp [StatefulBrowser.openPage, hg] at h ⊢
      subst h
      simp [StatefulBrowser.page, StatefulBrowser.url]
  · rfl

/-- Witness for C7: after opening a page on the sample browser, the `page`
and `url` properties show the sample response's soup and URL. -/
theorem open_updates_page_and_open_relative_witness :
    (StatefulBrowser.openPage okEnv sampleBrowser "http://example.com/x"
        none).browser.page = sampleResponse.soup ∧
    (StatefulBrowser.openPage okEnv sampleBrowser "http://example.com/x"
        none).browser.url = some sampleResponse.url :=
  (open_updates_page_and_open_relative okEnv sampleBrowser
      "http://example.com/x" none).1 sampleResponse rfl

/-- C8: with no form selected, reading the `form` property and assigning
`browser[name] = value` raise `AttributeError` while `get_current_form`
returns `None`; with a form selected, `form` returns it and
`get_current_form` returns the same object. -/
theorem form_accessors (env : Env) (b : StatefulBrowser)
    (name value : String) :
    (b.state.form = none →
      b.formProp = .error (.attributeError noFormMsg) ∧
      StatefulBrowser.setItem env b name value =
        .error (.attributeError noFormMsg) ∧
      b.get_current_form = none) ∧
    (∀ f, b.state.form = some f →
      b.formProp = .ok f ∧ b.get_current_form = some f) := by
  constructor
  · intro hf
    refine ⟨?_, ?_, ?_⟩ <;>
      simp [StatefulBrowser.formProp, StatefulBrowser.setItem,
        StatefulBrowser.get_current_form, hf]
  · intro f hf
    exact ⟨by simp [StatefulBrowser.formProp, hf],
           by simp [StatefulBrowser.get_current_form, hf]⟩

/-- Witness for C8: the empty browser raises on `form` and item assignment
and yields `None` from `get_current_form`; the sample browser returns its
selected form from both accessors. -/
theorem form_accessors_witness :
    (emptyBrowser.formProp = .error (.attributeError noFormMsg) ∧
     StatefulBrowser.setItem okEnv emptyBrowser "k" "v" =
       .error (.attributeError noFormMsg) ∧
     emptyBrowser.get_current_form = none) ∧
    (sampleBrowser.formProp = .ok sampleForm ∧
     sampleBrowser.get_current_form = some sampleForm) :=
  ⟨(form_accessors okEnv emptyBrowser "k" "v").1 rfl,
   (form_accessors okEnv sampleBrowser "k" "v").2 sampleForm rfl⟩

/-- C3: the Referer logic of `follow_link`, `submit_selected` and
`download_link`: every request those methods send carries the kwargs
produced by `_merge_referer` as written, and `_merge_referer` maps the
Referer key to the current URL when one is stored and the caller gave none
(case-insensitively), passes caller-supplied Referer headers through
unchanged, and adds nothing when no URL is stored. -/
theorem referer_propagation (env : Env) (b : StatefulBrowser) (kw : Kwargs) :
    (∀ u2, b.state.url = some u2 → ciContains kw.headers "Referer" = false →
      ciGet (merge_referer b.state.url kw).headers "Referer" = some u2) ∧
    (ciContains kw.headers "Referer" = true →
      merge_referer b.state.url kw = kw) ∧
    (b.state.url = none → merge_referer b.state.url kw = kw) ∧
    (∀ link ur lt sr,
      sr ∈ (StatefulBrowser.follow_link env b link ur lt kw).trace →
      sr.kwargs = some (merge_referer b.state.url kw).headers) ∧
    (∀ btn us sr,
      sr ∈ (StatefulBrowser.submit_selected env b btn us kw).trace →
      sr.kwargs = some (merge_referer b.state.url kw).headers) ∧
    (∀ link ur lt file sr,
      sr ∈ (StatefulBrowser.download_link env b link ur lt file kw).trace →
      sr.kwargs = some (merge_referer b.state.url kw).headers) := by
  refine ⟨?_, ?_, ?_, ?_, ?_, ?_⟩
  · intro u2 hu hc
    simp only [merge_referer, hu, hc, Bool.false_eq_true, if_false]
    simp only [Kwargs.headers, Option.getD_some]
    exact ciGet_ciSet_of_not_contains _ _ _ hc
  · intro hc
    cases hu : b.state.url with
    | none => simp [merge_referer]
    | some r => simp [merge_referer, hc]
  · intro hu
    simp [merge_referer, hu]
  · intro link ur lt sr hsr
    cases hl : StatefulBrowser.find_link_internal env b link ur lt with
    | error e => simp [StatefulBrowser.follow_link, hl] at hsr
    | ok t =>
      revert hsr
      cases hg : env.get (StatefulBrowser.absolute_url env b (hrefString t))
          (merge_referer b.state.url kw) with
      | error e =>
        intro hsr
        simp [StatefulBrowser.follow_link, StatefulBrowser.open_relative,
          StatefulBrowser.openPage, hl, hg] at hsr
        simp [hsr, SentRequest.kwargs]
      | ok r =>
        intro hsr
        simp [StatefulBrowser.follow_link, StatefulBrowser.open_relative,
          StatefulBrowser.openPage, hl, hg] at hsr
        simp [hsr, SentRequest.kwargs]
  · intro btn us sr hsr
    cases hf : b.state.form with
    | none => simp [StatefulBrowser.submit_selected, hf] at hsr
    | some f =>
      revert hsr
      cases hc : env.chooseSubmit f btn with
      | error e =>
        intro hsr
        simp [StatefulBrowser.submit_selected, hf, hc] at hsr
      | ok u =>
        cases hg : env.submit f b.state.url (merge_referer b.state.url kw) with
        | error e =>
          intro hsr
          simp [StatefulBrowser.submit_selected, hf, hc, hg] at hsr
          simp [hsr, SentRequest.kwargs]
        | ok r =>
          intro hsr
          simp [StatefulBrowser.submit_selected, hf, hc, hg] at hsr
          simp [hsr, SentRequest.kwargs]
  · intro link ur lt file sr hsr
    cases hl : StatefulBrowser.find_link_internal env b link ur lt with
    | error e => simp [StatefulBrowser.download_link, hl] at hsr
    | ok t =>
      revert hsr
      cases hs : b.sessionOpen with
      | false =>
        intro hsr
        simp [StatefulBrowser.download_link, hl, hs] at hsr
      | true =>
        cases hg : env.sessionGet
            (StatefulBrowser.absolute_url env b (hrefString t))
            (merge_referer b.state.url kw) with
        | error e =>
          intro hsr
          simp [StatefulBrowser.download_link, hl, hs, hg] at hsr
          simp [hsr, SentRequest.kwargs]
        | ok r =>
          intro hsr
          by_cases h404 : (b.raise_on_404 && r.statusCode == 404) = true <;>
            [skip; skip] <;>
            simp [StatefulBrowser.download_link, hl, hs, hg, h404] at hsr <;>
            simp [hsr, SentRequest.kwargs]

/-- Witness for C3: a concrete merge adding the Referer, a concrete
caller-supplied (differently cased) Referer passed through, a concrete
no-URL pass-through, and the concrete request sent by `follow_link`
carrying the merged headers. -/
theorem referer_propagation_witness :
    ciGet (merge_referer sampleBrowser.state.url none).headers "Referer" =
      some "http://example.com/cur" ∧
    merge_referer sampleBrowser.state.url
        (some [("referer", "http://other")]) =
      some [("referer", "http://other")] ∧
    merge_referer emptyBrowser.state.url none = none ∧
    (SentRequest.getReq "http://example.com/cur/next"
        (some [("Referer", "http://example.com/cur")])).kwargs =
      some (merge_referer sampleBrowser.state.url none).headers :=
  ⟨(referer_propagation okEnv sampleBrowser none).1
      "http://example.com/cur" rfl rfl,
   (referer_propagation okEnv sampleBrowser
      (some [("referer", "http://other")])).2.1 (by decide),
   (referer_propagation okEnv emptyBrowser none).2.2.1 rfl,
   (referer_propagation okEnv sampleBrowser none).2.2.2.1
      (.tagLink sampleAnchor) none none
      (.getReq "http://example.com/cur/next"
        (some [("Referer", "http://example.com/cur")]))
      (by decide)⟩

/-- C4 (amended): selecting a form tag whose id is the string `form_id`
yields that tag extended with exactly the owner-capable elements of the
whole page whose `form` attribute matches `form_id` — including elements
inside the form's own subtree, which the code does not exclude. -/
theorem select_form_associated_elements (env : Env) (b : StatefulBrowser)
    (form : Node) (form_id : String) (nr : Nat)
    (hname : form.name = "form")
    (hid : form.getAttr? "id" = some (.str form_id)) :
    (StatefulBrowser.select_form env b (.tagSel form) nr).1 =
      .ok (Form.mk (form.extend
        (find_associated_elements b.state.page form_id))) ∧
    (∀ e, e ∈ find_associated_elements b.state.page form_id ↔
      ∃ p, b.state.page = some p ∧ e ∈ p.descendants ∧
        e.name ∈ elements_with_owner_form ∧
        attrValMatches (e.getAttr? "form") form_id = true) := by
  constructor
  · simp [StatefulBrowser.select_form, hname, wrapSelectedForm, hid]
  · intro e
    cases hp : b.state.page with
    | none => simp [find_associated_elements]
    | some p =>
      simp only [find_associated_elements, List.mem_flatten, List.mem_map,
        Option.some.injEq]
      constructor
      · rintro ⟨l, ⟨nm, hnm, rfl⟩, hel⟩
        rw [Node.findAllAttr, List.mem_filter] at hel
        obtain ⟨hdesc, hpred⟩ := hel
        rw [Bool.and_eq_true, beq_iff_eq] at hpred
        exact ⟨p, rfl, hdesc, hpred.1 ▸ hnm, hpred.2⟩
      · rintro ⟨p2, hp2, hdesc, hnm, hattr⟩
        subst hp2
        refine ⟨p.findAllAttr e.name "form" form_id, ⟨e.name, hnm, rfl⟩, ?_⟩
        rw [Node.findAllAttr, List.mem_filter]
        exact ⟨hdesc, by rw [Bool.and_eq_true, beq_iff_eq]; exact ⟨rfl, hattr⟩⟩

/-- Witness for C4 (amended): on the counterexample page, the selected form
is the tag extended with the inside input, and the membership
characterization holds for that input. -/
theorem select_form_associated_elements_witness :
    (StatefulBrowser.select_form okEnv insideBrowser (.tagSel insideForm)
        0).1 =
      .ok (Form.mk (insideForm.extend
        (find_associated_elements insideBrowser.state.page "x"))) ∧
    (insideInput ∈ find_associated_elements insideBrowser.state.page "x" ↔
      ∃ p, insideBrowser.state.page = some p ∧
        insideInput ∈ p.descendants ∧
        insideInput.name ∈ elements_with_owner_form ∧
        attrValMatches (insideInput.getAttr? "form") "x" = true) :=
  ⟨(select_form_associated_elements okEnv insideBrowser insideForm "x" 0
      rfl rfl).1,
   (select_form_associated_elements okEnv insideBrowser insideForm "x" 0
      rfl rfl).2 insideInput⟩

/-- Counterexample for C4 as stated: on `insidePage`, the control
`insideInput` declares `form="x"` but sits inside the subtree of the form
with id "x"; `select_form` nevertheless extends the form with it, so the
resulting form differs from the form extended with exactly the
outside-the-subtree owned elements (of which there are none). -/
theorem select_form_outside_only_counterexample :
    (StatefulBrowser.select_form okEnv insideBrowser (.tagSel insideForm)
        0).1 =
      .ok (Form.mk (insideForm.extend [insideInput])) ∧
    insideInput ∈ insideForm.descendants ∧
    specOutsideOwnedElements (some insidePage) insideForm "x" = [] ∧
    Form.mk (insideForm.extend [insideInput]) ≠
      Form.mk (insideForm.extend
        (specOutsideOwnedElements (some insidePage) insideForm "x")) := by
  refine ⟨?_, ?_, ?_, ?_⟩ <;> decide

/-- C6: once `download_link` has found its link and received a response,
with `raise_on_404=True` it raises `LinkNotFoundError` exactly when the
response's status code is 404 and writes no file in that case; with
`raise_on_404=False` it returns the response regardless of the status code
and writes the file exactly when one was requested. -/
theorem download_link_404 (env : Env) (b : StatefulBrowser) (t : Node)
    (resp : Response) (ur lt file : Option String) (rkw : Kwargs)
    (ht : t.hasAttr "href" = true)
    (hs : b.sessionOpen = true)
    (hg : env.sessionGet (StatefulBrowser.absolute_url env b (hrefString t))
        (merge_referer b.state.url rkw) = .ok resp) :
    (b.raise_on_404 = true →
      (((StatefulBrowser.download_link env b (.tagLink t) ur lt file
          rkw).result = .error (.linkNotFound "")) ↔
        resp.statusCode = 404) ∧
      (resp.statusCode = 404 →
        (StatefulBrowser.download_link env b (.tagLink t) ur lt file
          rkw).wroteFile = false)) ∧
    (b.raise_on_404 = false →
      (StatefulBrowser.download_link env b (.tagLink t) ur lt file
          rkw).result = .ok resp ∧
      (StatefulBrowser.download_link env b (.tagLink t) ur lt file
          rkw).wroteFile = file.isSome) := by
  have hl : StatefulBrowser.find_link_internal env b (.tagLink t) ur lt =
      .ok t := by
    simp [StatefulBrowser.find_link_internal, ht]
  constructor
  · intro hr
    by_cases h404 : resp.statusCode = 404
    · constructor
      · constructor
        · intro _; exact h404
        · intro _
          simp [StatefulBrowser.download_link, hl, hs, hg, hr, h404]
      · intro _
        simp [StatefulBrowser.download_link, hl, hs, hg, hr, h404]
    · constructor
      · constructor
        · intro h
          exfalso
          simp [StatefulBrowser.download_link, hl, hs, hg, hr, h404] at h
        · intro h; exact absurd h h404
      · intro h; exact absurd h h404
  · intro hr
    constructor
    · simp [StatefulBrowser.download_link, hl, hs, hg, hr]
    · simp [StatefulBrowser.download_link, hl, hs, hg, hr]

/-- Witness for C6: on a 404 response, the raising browser's
`download_link` raises and writes nothing, and the non-raising browser
returns the 404 response and writes the requested file. -/
theorem download_link_404_witness :
    (StatefulBrowser.download_link notFoundEnv raisingBrowser
        (.tagLink sampleAnchor) none none (some "out.bin") none).result =
      .error (.linkNotFound "") ∧
    (StatefulBrowser.download_link notFoundEnv raisingBrowser
        (.tagLink sampleAnchor) none none (some "out.bin")
        none).wroteFile = false ∧
    (StatefulBrowser.download_link notFoundEnv sampleBrowser
        (.tagLink sampleAnchor) none none (some "out.bin") none).result =
      .ok notFoundResponse ∧
    (StatefulBrowser.download_link notFoundEnv sampleBrowser
        (.tagLink sampleAnchor) none none (some "out.bin")
        none).wroteFile = (some "out.bin").isSome :=
  ⟨((download_link_404 notFoundEnv raisingBrowser sampleAnchor
      notFoundResponse none none (some "out.bin") none rfl rfl rfl).1
      rfl).1.mpr rfl,
   ((download_link_404 notFoundEnv raisingBrowser sampleAnchor
      notFoundResponse none none (some "out.bin") none rfl rfl rfl).1
      rfl).2 rfl,
   ((download_link_404 notFoundEnv sampleBrowser sampleAnchor
      notFoundResponse none none (some "out.bin") none rfl rfl rfl).2
      rfl).1,
   ((download_link_404 notFoundEnv sampleBrowser sampleAnchor
      notFoundResponse none none (some "out.bin") none rfl rfl rfl).2
      rfl).2⟩

/-- Helper: the `url_regex` filter of `links` holds exactly when the href is
a string that `re.search` matches. -/
theorem hrefRegexPred_iff (env : Env) (r : String) (a : Node) :
    (match a.getAttr? "href" with
     | some (.str h) => env.reSearch r h
     | _ => false) = true ↔
    ∃ h, a.getAttr? "href" = some (.str h) ∧ env.reSearch r h = true := by
  cases hv : a.getAttr? "href" with
  | none => simp
  | some v => cases v with
    | str s => simp
    | list l => simp

/-- C9: `links` returns the empty list when no page is loaded, and otherwise
exactly the descendant anchors that carry an `href`, pass the optional
`url_regex` filter on a string href, and have exactly the optional
`link_text` as their text; `find_link` returns the head of that list and
raises `LinkNotFoundError` precisely when it is empty. -/
theorem links_and_find_link (env : Env) (b : StatefulBrowser)
    (ur lt : Option String) :
    (b.state.page = none → StatefulBrowser.links env b ur lt = []) ∧
    (∀ p, b.state.page = some p →
      ∀ a, a ∈ StatefulBrowser.links env b ur lt ↔
        (a ∈ p.descendants ∧ a.name = "a" ∧ a.hasAttr "href" = true ∧
         (∀ r, ur = some r → ∃ h, a.getAttr? "href" = some (.str h) ∧
            env.reSearch r h = true) ∧
         (∀ t, lt = some t → a.innerText = t))) ∧
    (StatefulBrowser.links env b ur lt = [] →
      StatefulBrowser.find_link env b ur lt = .error (.linkNotFound "")) ∧
    (∀ l rest, StatefulBrowser.links env b ur lt = l :: rest →
      StatefulBrowser.find_link env b ur lt = .ok l) := by
  refine ⟨?_, ?_, ?_, ?_⟩
  · intro hp
    simp [StatefulBrowser.links, hp]
  · intro p hp a
    cases ur with
    | none =>
      cases lt with
      | none =>
        simp [StatefulBrowser.links, hp, Node.findAllWithAttr,
          List.mem_filter, Bool.and_eq_true, beq_iff_eq, and_assoc]
      | some t0 =>
        simp [StatefulBrowser.links, hp, Node.findAllWithAttr,
          List.mem_filter, Bool.and_eq_true, beq_iff_eq, and_assoc]
        intro _
        tauto
    | some r0 =>
      cases lt with
      | none =>
        simp [StatefulBrowser.links, hp, Node.findAllWithAttr,
          List.mem_filter, Bool.and_eq_true, beq_iff_eq, and_assoc,
          hrefRegexPred_iff]
        intro _
        tauto
      | some t0 =>
        simp [StatefulBrowser.links, hp, Node.findAllWithAttr,
          List.mem_filter, Bool.and_eq_true, beq_iff_eq, and_assoc,
          hrefRegexPred_iff]
        intro _
        tauto
  · intro h
    simp [StatefulBrowser.find_link, h]
  · intro l rest h
    simp [StatefulBrowser.find_link, h]

/-- Witness for C9: the empty browser yields no links, the sample page's
anchor satisfies the membership characterization, and `find_link` returns
the anchor on the sample browser and raises on the empty one. -/
theorem links_and_find_link_witness :
    StatefulBrowser.links okEnv emptyBrowser none none = [] ∧
    (sampleAnchor ∈ StatefulBrowser.links okEnv sampleBrowser none none ↔
      (sampleAnchor ∈ samplePage.descendants ∧ sampleAnchor.name = "a" ∧
       sampleAnchor.hasAttr "href" = true ∧
       (∀ r, (none : Option String) = some r →
          ∃ h, sampleAnchor.getAttr? "href" = some (.str h) ∧
            okEnv.reSearch r h = true) ∧
       (∀ t, (none : Option String) = some t →
          sampleAnchor.innerText = t))) ∧
    StatefulBrowser.find_link okEnv sampleBrowser none none =
      .ok sampleAnchor ∧
    StatefulBrowser.find_link okEnv emptyBrowser none none =
      .error (.linkNotFound "") :=
  ⟨(links_and_find_link okEnv emptyBrowser none none).1 rfl,
   (links_and_find_link okEnv sampleBrowser none none).2.1 samplePage rfl
     sampleAnchor,
   (links_and_find_link okEnv sampleBrowser none none).2.2.2 sampleAnchor []
     (by decide),
   (links_and_find_link okEnv emptyBrowser none none).2.2.1 rfl⟩

end MechanicalSoup
